import Mathlib

/-!
Verification of the buyer-property matching engine of the landconnect backend
(src/buyer/utils.py), shallowly embedded in Lean 4.

Conventions of the embedding:
* Python floats and Decimals are modelled as exact rationals.
* Python None / falsy handling is modelled explicitly: loosely typed numeric
  slots are a `PVal` (none, number, or string), and a function that can raise
  a Python exception returns an `Option`, with `Option.none` standing for the
  raised exception.
* All strings in the engine are ASCII, so the ASCII case functions of Lean
  model Python str.lower / str.upper faithfully on the relevant inputs.
* Human-readable f-string explanation texts (match_details) are display-only
  and are not modelled; every numeric and categorical field of the results is.
-/

/-! ### Python string primitives, modelled on lists of characters -/

/-- Python str truthiness-relevant whitespace set for str.strip and re \s. -/
def pySpace (c : Char) : Bool :=
  c = ' ' || c = '\t' || c = '\n' || c = '\r' || c = '\x0b' || c = '\x0c'

/-- Word character in the sense of the re module \w and \b (ASCII inputs). -/
def isWordChar (c : Char) : Bool :=
  c.isAlphanum || c = '_'

/-- Characters of a string after Python str.strip(). -/
def stripChars (cs : List Char) : List Char :=
  ((cs.dropWhile pySpace).reverse.dropWhile pySpace).reverse

/-- Python str.strip(). -/
def pyStrip (s : String) : String :=
  String.mk (stripChars s.toList)

/-- Python str.lower() (ASCII inputs). -/
def pyLower (s : String) : String :=
  String.mk (s.toList.map Char.toLower)

/-- Python str.upper() (ASCII inputs). -/
def pyUpper (s : String) : String :=
  String.mk (s.toList.map Char.toUpper)

/-- Boolean prefix test on character lists. -/
def charsPre : List Char → List Char → Bool
  | [], _ => true
  | _ :: _, [] => false
  | a :: as, b :: bs => a = b && charsPre as bs

/-- Boolean substring test on character lists (Python `needle in hay`). -/
def charsSub (needle : List Char) : List Char → Bool
  | [] => charsPre needle []
  | c :: rest => charsPre needle (c :: rest) || charsSub needle rest

/-- Python substring operator `needle in hay` on strings. -/
def pyIn (needle hay : String) : Bool :=
  charsSub needle.toList hay.toList

/-- Split on a single comma character, keeping empty segments, as
Python address.split(",") does. -/
def splitCommaChars : List Char → List (List Char)
  | [] => [[]]
  | c :: rest =>
    match splitCommaChars rest with
    | h :: t => if c = ',' then [] :: h :: t else (c :: h) :: t
    | [] => [[c]]

/-- Python address.split(",") producing strings. -/
def pySplitComma (s : String) : List String :=
  (splitCommaChars s.toList).map String.mk

/-- Whitespace tokenization worker, structurally recursive on a fuel that the
wrapper sets to the length of the text; each step consumes at least one
character, so the fuel never runs out on the wrapper call. -/
def wsTokensAux : Nat → List Char → List (List Char)
  | 0, _ => []
  | _ + 1, [] => []
  | fuel + 1, c :: rest =>
    if pySpace c then wsTokensAux fuel rest
    else (c :: rest.takeWhile (fun d => !pySpace d)) ::
      wsTokensAux fuel (rest.dropWhile (fun d => !pySpace d))

/-- Whitespace tokenization as Python str.split() with no argument: split on
runs of whitespace and drop empty tokens. -/
def wsTokens (cs : List Char) : List (List Char) :=
  wsTokensAux cs.length cs

/-! ### The three postal-code regular expressions of the parser

Each pattern of src/buyer/utils.py is modelled by a function that, given the
suffix of the text starting at a candidate position, returns the length of the
regex match anchored there (with the trailing word boundary already checked),
or none.  All three patterns begin with a word character, so the leading \b of
the pattern holds exactly when the character before the position is not a word
character; the generic scanners below thread that flag.  All three patterns
end with a word character, which the scanners rely on after a match. -/

/-- Trailing \b after a match ending in a word character. -/
def wordBoundaryAfter : List Char → Bool
  | [] => true
  | c :: _ => !isWordChar c

/-- Test that a list consists of decimal digits. -/
def allDigits (l : List Char) : Bool :=
  l.all Char.isDigit

/-- Match of the US ZIP pattern \b(\d{5}(?:-\d{4})?)\b anchored at the start
of the given suffix, greedy on the optional +4 group with backtracking. -/
def tryUSZip (cs : List Char) : Option Nat :=
  let d5 := cs.take 5
  if d5.length = 5 && allDigits d5 then
    let rest := cs.drop 5
    match rest with
    | '-' :: r2 =>
      let d4 := r2.take 4
      if d4.length = 4 && allDigits d4 && wordBoundaryAfter (r2.drop 4) then some 10
      else if wordBoundaryAfter rest then some 5
      else Option.none
    | _ => if wordBoundaryAfter rest then some 5 else Option.none
  else Option.none

/-- Match of the Indian PIN pattern \b(\d{6})\b anchored at the start of the
given suffix. -/
def tryIndianPin (cs : List Char) : Option Nat :=
  let d6 := cs.take 6
  if d6.length = 6 && allDigits d6 && wordBoundaryAfter (cs.drop 6) then some 6
  else Option.none

/-- Tail \s*\d[A-Z]{2}\b of the UK postcode pattern.  The \s* is effectively
maximal: a shorter run of spaces would leave a space where a digit is
required, so no backtracking case arises. -/
def ukTail (letterOK : Char → Bool) (cs : List Char) : Option Nat :=
  let sp := cs.takeWhile pySpace
  match cs.drop sp.length with
  | d :: l1 :: l2 :: r =>
    if d.isDigit && letterOK l1 && letterOK l2 && wordBoundaryAfter r then
      some (sp.length + 3)
    else Option.none
  | _ => Option.none

/-- Optional [A-Z\d]? of the UK postcode pattern, greedy with backtracking,
followed by the tail. -/
def ukAfterFirstDigit (letterOK : Char → Bool) (cs : List Char) : Option Nat :=
  match cs with
  | x :: rest =>
    if letterOK x || x.isDigit then
      match ukTail letterOK rest with
      | some n => some (n + 1)
      | Option.none => ukTail letterOK cs
    else ukTail letterOK cs
  | [] => Option.none

/-- Part \d[A-Z\d]?\s*\d[A-Z]{2}\b of the UK postcode pattern. -/
def ukFromDigit (letterOK : Char → Bool) (cs : List Char) : Option Nat :=
  match cs with
  | d :: rest => if d.isDigit then (ukAfterFirstDigit letterOK rest).map (· + 1) else Option.none
  | [] => Option.none

/-- Match of the UK postcode pattern \b([A-Z]{1,2}\d[A-Z\d]?\s*\d[A-Z]{2})\b
anchored at the start of the suffix; [A-Z]{1,2} is greedy with backtracking.
The letter predicate is a parameter: uppercase-only for the search on the
upper-cased text, any ASCII letter for the IGNORECASE substitution. -/
def tryUK (letterOK : Char → Bool) (cs : List Char) : Option Nat :=
  match cs with
  | a :: rest =>
    if letterOK a then
      let one := (ukFromDigit letterOK rest).map (· + 1)
      match rest with
      | b :: rest2 =>
        if letterOK b then
          match ukFromDigit letterOK rest2 with
          | some n => some (n + 2)
          | Option.none => one
        else one
      | [] => one
    else Option.none
  | [] => Option.none

/-- Leftmost match of a pattern in the sense of re.search: scan positions
left to right, attempting the pattern only where the leading word boundary
holds, and return the matched characters. -/
def reSearchAux (tryPat : List Char → Option Nat) : Bool → List Char → Option (List Char)
  | _, [] => Option.none
  | prevWord, c :: rest =>
    match (if prevWord then Option.none else tryPat (c :: rest)) with
    | some n => some ((c :: rest).take n)
    | Option.none => reSearchAux tryPat (isWordChar c) rest

/-- Search from the start of the text, where the word boundary holds. -/
def reSearch (tryPat : List Char → Option Nat) (cs : List Char) : Option (List Char) :=
  reSearchAux tryPat false cs

/-- Removal of every non-overlapping leftmost match, as re.sub with an empty
replacement: after a match the scan resumes right after it; the last matched
character of each of the three patterns is a word character, so the boundary
flag is set there.  A zero-length match cannot arise for these patterns and
is treated as no match. -/
def reSubAux (tryPat : List Char → Option Nat) : Nat → Bool → List Char → List Char
  | 0, _, cs => cs
  | _ + 1, _, [] => []
  | fuel + 1, prevWord, c :: rest =>
    match (if prevWord then Option.none else tryPat (c :: rest)) with
    | some (n + 1) => reSubAux tryPat fuel true (rest.drop n)
    | _ => c :: reSubAux tryPat fuel (isWordChar c) rest

/-- Substitution from the start of the text.  The fuel equals the text
length; each step consumes at least one character, so it never runs out. -/
def reSub (tryPat : List Char → Option Nat) (cs : List Char) : List Char :=
  reSubAux tryPat cs.length false cs

/-! ### extract_location_components (free-text path) -/

/-- Normalized structure produced by extract_location_components, with the
fields in the order of the components dict of the source. -/
structure LocationComponents where
  city : Option String
  county : Option String
  state : Option String
  zip_code : Option String
  country : Option String
  full_address : Option String
deriving DecidableEq, Repr

/-- Country identifiers recognized by the parser. -/
def known_countries : List String :=
  ["india", "usa", "united states", "canada", "uk", "united kingdom",
   "australia", "germany", "france", "japan", "china"]

/-- Single step of the ZIP scan loop on one comma segment: try the US ZIP,
Indian PIN and UK postcode patterns in that order; on the first hit record
the match as the ZIP (overwriting any earlier one) and strip every occurrence
of the pattern from the segment. -/
def zipStep (part : String) (z : Option String) : Option String × String :=
  match reSearch tryUSZip part.toList with
  | some m => (some (String.mk m), pyStrip (String.mk (reSub tryUSZip part.toList)))
  | Option.none =>
    match reSearch tryIndianPin part.toList with
    | some m => (some (String.mk m), pyStrip (String.mk (reSub tryIndianPin part.toList)))
    | Option.none =>
      match reSearch (tryUK (fun c => 'A' ≤ c && c ≤ 'Z')) (pyUpper part).toList with
      | some m =>
        (some (String.mk m),
         pyStrip (String.mk (reSub (tryUK (fun c => c.isUpper || c.isLower)) part.toList)))
      | Option.none => (z, part)

/-- ZIP scan over all comma segments, threading the recorded ZIP left to
right and rewriting each segment. -/
def zipScan : List String → Option String → Option String × List String
  | [], z => (z, [])
  | part :: rest, z =>
    let (z1, p1) := zipStep part z
    let (z2, ps) := zipScan rest z1
    (z2, p1 :: ps)

/-- Final cleanup loop of the parser: a truthy value that strips to the empty
string becomes None. -/
def cleanupVal (o : Option String) : Option String :=
  match o with
  | some s => if s ≠ "" && pyStrip s = "" then Option.none else some s
  | Option.none => Option.none

/-- Free-text path of extract_location_components of src/buyer/utils.py:
split on commas, detect a trailing known country, extract postal codes,
then assign city, state and county from the first three remaining segments. -/
def extract_location_components (address_or_components : String) : LocationComponents :=
  let address := pyStrip address_or_components
  let parts0 := (pySplitComma address).map pyStrip |>.filter (· ≠ "")
  if parts0 = [] then
    ⟨Option.none, Option.none, Option.none, Option.none, Option.none, some address⟩
  else
    let lastPart := parts0.getLastD ""
    let countryHit := known_countries.any (fun c => pyIn c (pyLower lastPart))
    let country : Option String := if countryHit then some lastPart else Option.none
    let parts1 := if countryHit then parts0.dropLast else parts0
    let (zip, parts2) := zipScan parts1 Option.none
    let parts3 := parts2.filter (· ≠ "")
    { city := cleanupVal (parts3.get? 0)
      county := cleanupVal (parts3.get? 2)
      state := cleanupVal (parts3.get? 1)
      zip_code := cleanupVal zip
      country := cleanupVal country
      full_address := cleanupVal (some address) }

/-! ### calculate_location_match_score -/

/-- Helper normalize_component of the scorer: a falsy component is None,
otherwise it is stripped and lower-cased (which may leave an empty, falsy
string for whitespace-only input). -/
def normalize_component (c : Option String) : Option String :=
  match c with
  | Option.none => Option.none
  | some s => if s = "" then Option.none else some (pyLower (pyStrip s))

/-- Truthiness filter on an optional string: only a non-None, non-empty
string passes. -/
def truthyOpt (o : Option String) : Option String :=
  match o with
  | some s => if s = "" then Option.none else some s
  | Option.none => Option.none

/-- Per-component tally of the structured comparison: when both normalized
sides are truthy the component contributes (1 if equal else 0, 1) to the
(matches, total_components) counters, otherwise (0, 0). -/
def tally (b p : Option String) : Nat × Nat :=
  match truthyOpt (normalize_component b), truthyOpt (normalize_component p) with
  | some nb, some np => (if nb = np then 1 else 0, 1)
  | _, _ => (0, 0)

/-- Accumulated (matches, total_components) over the four compared
components, in the order of the source: city, state, county, zip_code. -/
def structuredCounts (bc pc : LocationComponents) : Nat × Nat :=
  let tCity := tally bc.city pc.city
  let tState := tally bc.state pc.state
  let tCounty := tally bc.county pc.county
  let tZip := tally bc.zip_code pc.zip_code
  (tCity.1 + tState.1 + tCounty.1 + tZip.1, tCity.2 + tState.2 + tCounty.2 + tZip.2)

/-- Country gate of the scorer: fires when both normalized countries are
truthy and differ. -/
def countryMismatch (bc pc : LocationComponents) : Bool :=
  match truthyOpt (normalize_component bc.country), truthyOpt (normalize_component pc.country) with
  | some b, some p => b ≠ p
  | _, _ => false

/-- Token set of the fallback comparison: commas become spaces, the text is
split on whitespace, and stripped tokens longer than two characters are kept
as a set. -/
def tokenSet (s : String) : Finset String :=
  (((wsTokens (s.toList.map (fun c => if c = ',' then ' ' else c))).map
      (fun l => pyStrip (String.mk l))).filter (fun t => 2 < t.length)).toFinset

/-- Fallback of the scorer when no structured component pair is available:
exact lower-cased string equality scores 1.0, otherwise a Jaccard-style token
overlap of at least 0.3 scores min(0.7, overlap), otherwise 0.0. -/
def locationFallback (buyer_address property_address : String) : ℚ :=
  let bNorm := pyStrip (pyLower buyer_address)
  let pNorm := pyStrip (pyLower property_address)
  if bNorm = pNorm then 1
  else
    let bParts := tokenSet bNorm
    let pParts := tokenSet pNorm
    if bParts ≠ ∅ ∧ pParts ≠ ∅ then
      let common := bParts ∩ pParts
      let total_unique := bParts ∪ pParts
      if 0 < common.card then
        let overlap_ratio : ℚ := (common.card : ℚ) / (total_unique.card : ℚ)
        if 0.3 ≤ overlap_ratio then min 0.7 overlap_ratio else 0
      else 0
    else 0

/-- Location similarity scorer calculate_location_match_score of
src/buyer/utils.py.  The debug-details second return value is display-only
and not modelled; the score is returned exactly. -/
def calculate_location_match_score (buyer_address property_address : String) : ℚ :=
  if buyer_address = "" || property_address = "" then 0
  else
    let bc := extract_location_components buyer_address
    let pc := extract_location_components property_address
    if countryMismatch bc pc then 0.1
    else
      let counts := structuredCounts bc pc
      if 0 < counts.2 then (counts.1 : ℚ) / (counts.2 : ℚ)
      else locationFallback buyer_address property_address

/-! ### Loosely typed Python numeric values -/

/-- Python value in a loosely typed numeric slot: None, a number (int, float
or Decimal, modelled exactly as a rational), or a string. -/
inductive PVal where
  | vnone
  | vnum (q : ℚ)
  | vstr (s : String)
deriving DecidableEq

/-- Python truthiness of a PVal: None and zero and the empty string are
falsy. -/
def truthy : PVal → Bool
  | PVal.vnone => false
  | PVal.vnum q => q ≠ 0
  | PVal.vstr s => s ≠ ""

/-- Value of a list of decimal digit characters. -/
def digitsVal (l : List Char) : ℕ :=
  l.foldl (fun a c => 10 * a + (c.toNat - 48)) 0

/-- Python float(str) on finite decimal literals: optional sign, an integer
and/or fractional digit part, and an optional exponent.  Specials such as
inf, nan or underscore separators are outside the model; none models a
raised ValueError. -/
def parsePyFloat (s : String) : Option ℚ :=
  let cs := stripChars s.toList
  let signSplit : Bool × List Char :=
    match cs with
    | '+' :: r => (false, r)
    | '-' :: r => (true, r)
    | _ => (false, cs)
  let neg := signSplit.1
  let cs1 := signSplit.2
  let intDigits := cs1.takeWhile Char.isDigit
  let afterInt := cs1.drop intDigits.length
  let fracSplit : List Char × List Char :=
    match afterInt with
    | '.' :: r => (r.takeWhile Char.isDigit, r.drop (r.takeWhile Char.isDigit).length)
    | _ => ([], afterInt)
  let fracDigits := fracSplit.1
  let afterFrac := fracSplit.2
  if intDigits = [] && fracDigits = [] then Option.none
  else
    let mant : ℚ := (digitsVal intDigits : ℚ) + (digitsVal fracDigits : ℚ) / ((10 : ℚ) ^ fracDigits.length)
    let signed := if neg then -mant else mant
    match afterFrac with
    | [] => some signed
    | e :: r =>
      if e = 'e' || e = 'E' then
        let esignSplit : Bool × List Char :=
          match r with
          | '+' :: rr => (false, rr)
          | '-' :: rr => (true, rr)
          | _ => (false, r)
        let eDigits := esignSplit.2.takeWhile Char.isDigit
        if eDigits = [] || esignSplit.2.drop eDigits.length ≠ [] then Option.none
        else some (if esignSplit.1 then signed / (10 : ℚ) ^ digitsVal eDigits
                   else signed * (10 : ℚ) ^ digitsVal eDigits)
      else Option.none

/-- Python float(x) on a PVal; none models a raised TypeError or ValueError. -/
def pyFloat : PVal → Option ℚ
  | PVal.vnone => Option.none
  | PVal.vnum q => some q
  | PVal.vstr s => parsePyFloat s

/-- Injection of a typed model field (Decimal or NULL) into a PVal. -/
def ofOpt : Option ℚ → PVal
  | Option.none => PVal.vnone
  | some q => PVal.vnum q

/-- Comparison against an upper bound where none stands for float(inf). -/
def leMax (p : ℚ) : Option ℚ → Bool
  | Option.none => true
  | some m => p ≤ m

/-! ### Attribute match scorers -/

/-- Lower-case and replace spaces by underscores, the normalization of
calculate_land_type_match_score. -/
def normalizeTypeName (s : String) : String :=
  String.mk ((pyLower s).toList.map (fun c => if c = ' ' then '_' else c))

/-- Land type scorer calculate_land_type_match_score of src/buyer/utils.py.
The buyer side is the JSON list of land type choices; the property side is
the name of the LandType row (None when the reference is absent). -/
def calculate_land_type_match_score (buyer_land_property_types : List String)
    (property_land_type : Option String) : ℚ :=
  if buyer_land_property_types = [] then 0
  else
    match property_land_type with
    | Option.none => 0
    | some name =>
      if name = "" then 0
      else
        let propNorm := normalizeTypeName name
        if buyer_land_property_types.any (fun t => normalizeTypeName t = propNorm) then 1
        else 0

/-- Exit strategy scorer calculate_exit_strategy_match_score of
src/buyer/utils.py: substring containment in either direction between the
normalized property strategy and any normalized buyer strategy. -/
def calculate_exit_strategy_match_score (buyer_strategies : List String)
    (property_strategy : String) : ℚ :=
  if buyer_strategies = [] || property_strategy = "" then 0
  else
    let normProp := pyLower (pyStrip property_strategy)
    if buyer_strategies.any (fun s =>
        let normBuyer := pyLower (pyStrip s)
        pyIn normProp normBuyer || pyIn normBuyer normProp) then 1
    else 0

/-- Unit conversion normalize_lot_size_to_acres of src/buyer/utils.py:
divide by 43560 when the unit is sqft, otherwise treat the size as acres;
falsy or unparseable sizes become 0. -/
def normalize_lot_size_to_acres (lot_size : PVal) (unit : Option String) : ℚ :=
  if !truthy lot_size then 0
  else
    match pyFloat lot_size with
    | Option.none => 0
    | some size =>
      match unit with
      | some u => if u ≠ "" && pyLower u = "sqft" then size / 43560 else size
      | Option.none => size

/-- Lot size scorer calculate_lot_size_match_score of src/buyer/utils.py.
A falsy property size, or one normalizing to 0 acres, scores 0 before the
buyer bounds are even converted; a truthy unparseable buyer bound raises
(the returned none).  An absent maximum stands for float(inf). -/
def calculate_lot_size_match_score (buyer_min_size buyer_max_size property_size : PVal)
    (property_unit : Option String) : Option ℚ :=
  if !truthy property_size then some 0
  else
    let property_size_acres := normalize_lot_size_to_acres property_size property_unit
    if property_size_acres = 0 then some 0
    else
      match (if truthy buyer_min_size then pyFloat buyer_min_size else some 0) with
      | Option.none => Option.none
      | some min_size =>
        match (if truthy buyer_max_size then (pyFloat buyer_max_size).map some
               else some Option.none) with
        | Option.none => Option.none
        | some max_size =>
          some (if min_size ≤ property_size_acres && leMax property_size_acres max_size
                then 1 else 0)

/-- Price scorer calculate_price_match_score of src/buyer/utils.py.  The
property side fails closed (an unparseable price scores 0); a truthy
unparseable buyer bound raises (the returned none). -/
def calculate_price_match_score (buyer_min_price buyer_max_price property_price : PVal) :
    Option ℚ :=
  if !truthy property_price then some 0
  else
    match pyFloat property_price with
    | Option.none => some 0
    | some p =>
      match (if truthy buyer_min_price then pyFloat buyer_min_price else some 0) with
      | Option.none => Option.none
      | some min_price =>
        match (if truthy buyer_max_price then (pyFloat buyer_max_price).map some
               else some Option.none) with
        | Option.none => Option.none
        | some max_price =>
          some (if min_price ≤ p && leMax p max_price then 1 else 0)

/-- Effective lower bound used by the range scorers: a falsy (absent or
zero) buyer minimum behaves as 0, and a zero minimum converts to 0 anyway,
so the bound is always the stored value with 0 for None. -/
def minBoundVal (a : Option ℚ) : ℚ :=
  a.getD 0

/-- Effective upper bound used by the range scorers, with none standing for
float(inf): a falsy (absent or zero) buyer maximum behaves as infinity. -/
def maxBoundVal : Option ℚ → Option ℚ
  | Option.none => Option.none
  | some q => if q = 0 then Option.none else some q

/-! ### Rounding and fit classification -/

/-- Python round() to the nearest integer with ties to even. -/
def pyRoundHalfEven (q : ℚ) : ℤ :=
  let f := ⌊q⌋
  let r := q - (f : ℚ)
  if r < 1 / 2 then f
  else if 1 / 2 < r then f + 1
  else if f % 2 = 0 then f else f + 1

/-- Python round(x, ndigits) on the exact rational model of the float. -/
def pyRound (q : ℚ) (ndigits : ℕ) : ℚ :=
  (pyRoundHalfEven (q * (10 : ℚ) ^ ndigits) : ℚ) / (10 : ℚ) ^ ndigits

/-- Fit classification of match_property_to_single_buyer: more than 45 is a
Good Fit, less than 40 a Poor Fit, everything between a Marginal Fit. -/
def likelihood_of (total_score : ℚ) : String :=
  if total_score > 45 then "Good Fit"
  else if total_score < 40 then "Poor Fit"
  else "Marginal Fit"

/-! ### Data model records (engine-relevant fields only) -/

/-- Fields of data_management_app.models.PropertySubmission read by the
matching engine.  The land type foreign key is represented by the name of
the referenced LandType row; every field here is NOT NULL in the model. -/
structure PropertySubmission where
  address : String
  land_type : String
  lot_size : ℚ
  lot_size_unit : String
  agreed_price : ℚ
  exit_strategy : String
deriving DecidableEq

/-- Fields of buyer.models.BuyBoxFilter read by the matching engine, plus
the identifying buyer fields echoed into pool matcher entries.  The price
and lot size bounds are nullable Decimal columns. -/
structure BuyBoxFilter where
  buyer_id : ℕ
  buyer_name : String
  buyer_email : String
  asset_type : String
  is_active_buyer : Bool
  is_blacklisted : Bool
  address : String
  land_property_types : List String
  exit_strategy : List String
  price_min : Option ℚ
  price_max : Option ℚ
  lot_size_min : Option ℚ
  lot_size_max : Option ℚ
deriving DecidableEq

/-- Per-component quintuple in the fixed order of the evaluator. -/
structure Components where
  location : ℚ
  land_type : ℚ
  exit_strategy : ℚ
  lot_size : ℚ
  price : ℚ
deriving DecidableEq

/-! ### Single-buyer evaluator -/

/-- Lot size component of the evaluator: the property size is normalized to
acres with its own unit first, and the scorer is then called on the result
with unit acres.  With typed model bounds the scorer cannot raise; the
default of getD is unreachable (lemma lot_size_score_isSome). -/
def lot_size_score_of (p : PropertySubmission) (bf : BuyBoxFilter) : ℚ :=
  let property_lot_size_acres :=
    normalize_lot_size_to_acres (PVal.vnum p.lot_size) (some p.lot_size_unit)
  (calculate_lot_size_match_score (ofOpt bf.lot_size_min) (ofOpt bf.lot_size_max)
    (PVal.vnum property_lot_size_acres) (some "acres")).getD 0

/-- Price component of the evaluator.  With typed model bounds the scorer
cannot raise; the default of getD is unreachable (lemma price_score_isSome). -/
def price_score_of (p : PropertySubmission) (bf : BuyBoxFilter) : ℚ :=
  (calculate_price_match_score (ofOpt bf.price_min) (ofOpt bf.price_max)
    (PVal.vnum p.agreed_price)).getD 0

/-- Normalized component scores of one eligible evaluation, in the order the
evaluator computes them. -/
def component_scores_of (p : PropertySubmission) (bf : BuyBoxFilter) : Components where
  location := calculate_location_match_score bf.address p.address
  land_type := calculate_land_type_match_score bf.land_property_types (some p.land_type)
  exit_strategy := calculate_exit_strategy_match_score bf.exit_strategy p.exit_strategy
  lot_size := lot_size_score_of p bf
  price := price_score_of p bf

/-- Weighted contributions: the fixed 40/30/20/5/5 weights applied to the
component scores. -/
def weighted_contribution_of (p : PropertySubmission) (bf : BuyBoxFilter) : Components :=
  let cs := component_scores_of p bf
  ⟨cs.location * 40, cs.land_type * 30, cs.exit_strategy * 20, cs.lot_size * 5, cs.price * 5⟩

/-- Total score accumulated by the evaluator: the sum of the five weighted
contributions. -/
def total_score_of (p : PropertySubmission) (bf : BuyBoxFilter) : ℚ :=
  let w := weighted_contribution_of p bf
  w.location + w.land_type + w.exit_strategy + w.lot_size + w.price

/-- Result dictionary of one eligible evaluation with a total score of at
least 1.  The match_details explanation strings are display-only and not
modelled. -/
structure MatchResult where
  match_score : ℚ
  likelihood : String
  component_scores : Components
  component_contributions : Components
  weighted_contribution : Components
deriving DecidableEq

/-- Result construction of match_property_to_single_buyer: the total is
rounded to two decimals, the component scores are reported as percentages
rounded to one decimal, and the contributions both raw and rounded to one
decimal. -/
def mk_match_result (p : PropertySubmission) (bf : BuyBoxFilter) : MatchResult :=
  let cs := component_scores_of p bf
  let w := weighted_contribution_of p bf
  { match_score := pyRound (total_score_of p bf) 2
    likelihood := likelihood_of (total_score_of p bf)
    component_scores :=
      ⟨pyRound (cs.location * 100) 1, pyRound (cs.land_type * 100) 1,
       pyRound (cs.exit_strategy * 100) 1, pyRound (cs.lot_size * 100) 1,
       pyRound (cs.price * 100) 1⟩
    component_contributions :=
      ⟨pyRound w.location 1, pyRound w.land_type 1, pyRound w.exit_strategy 1,
       pyRound w.lot_size 1, pyRound w.price 1⟩
    weighted_contribution := w }

/-- Single-buyer evaluator match_property_to_single_buyer of
src/buyer/utils.py: eligibility gates first (inactive, blacklisted, or a
houses-only buyer yields None before any scoring), then the weighted score;
totals below 1 are suppressed to None.  The source computes the likelihood
label before the minimum-score check; both are pure, so the order is
immaterial. -/
def match_property_to_single_buyer (p : PropertySubmission) (bf : BuyBoxFilter) :
    Option MatchResult :=
  if !bf.is_active_buyer || bf.is_blacklisted then Option.none
  else if bf.asset_type = "houses" then Option.none
  else if total_score_of p bf < 1 then Option.none
  else some (mk_match_result p bf)

/-! ### Buyer pool matcher -/

/-- Query-layer eligibility filter of match_property_to_buyers:
is_active_buyer, not blacklisted, asset type land or both. -/
def eligible_filter (bf : BuyBoxFilter) : Bool :=
  bf.is_active_buyer && !bf.is_blacklisted &&
    (bf.asset_type = "land" || bf.asset_type = "both")

/-- Entry of the pool matcher result list: the buyer record it came from
(standing for the echoed buyer and buyer_criteria dictionaries) together
with every field copied from the single-buyer match result. -/
structure BuyerMatchEntry where
  buyer : BuyBoxFilter
  match_score : ℚ
  likelihood : String
  component_scores : Components
  component_contributions : Components
  weighted_contribution : Components
deriving DecidableEq

/-- Construction of one pool entry from a non-null evaluation result. -/
def buyer_match_entry (bf : BuyBoxFilter) (r : MatchResult) : BuyerMatchEntry :=
  ⟨bf, r.match_score, r.likelihood, r.component_scores, r.component_contributions,
   r.weighted_contribution⟩

/-- Collection loop of match_property_to_buyers: evaluate every filtered
buyer record in order and keep the non-null results. -/
def collected_matches (p : PropertySubmission) (filters : List BuyBoxFilter) :
    List BuyerMatchEntry :=
  (filters.filter eligible_filter).filterMap
    (fun bf => (match_property_to_single_buyer p bf).map (buyer_match_entry bf))

/-- Descending comparison used for the stable sort of the match list. -/
def entry_le (a b : BuyerMatchEntry) : Bool :=
  b.match_score ≤ a.match_score

/-- Output of the pool matcher: the sorted match list, the three buckets and
the summary counts. -/
structure PoolMatchOutput where
  all_matches : List BuyerMatchEntry
  good_fit_buyers : List BuyerMatchEntry
  marginal_fit_buyers : List BuyerMatchEntry
  poor_fit_buyers : List BuyerMatchEntry
  total_buyers_evaluated : ℕ
  total_matches : ℕ
  good_fit_count : ℕ
  marginal_fit_count : ℕ
  poor_fit_count : ℕ
deriving DecidableEq

/-- Buyer pool matcher match_property_to_buyers of src/buyer/utils.py,
parameterized by the stored BuyBoxFilter table: filter at the query layer,
evaluate each buyer, sort the matches by descending score with a stable
sort, and bucket them by the fixed thresholds. -/
def match_property_to_buyers (p : PropertySubmission) (filters : List BuyBoxFilter) :
    PoolMatchOutput :=
  let buyer_filters := filters.filter eligible_filter
  let sorted := (collected_matches p filters).mergeSort entry_le
  let good_fit_buyers := sorted.filter (fun m => 45 < m.match_score)
  let marginal_fit_buyers := sorted.filter (fun m => 40 ≤ m.match_score && m.match_score ≤ 45)
  let poor_fit_buyers := sorted.filter (fun m => m.match_score < 40)
  { all_matches := sorted
    good_fit_buyers := good_fit_buyers
    marginal_fit_buyers := marginal_fit_buyers
    poor_fit_buyers := poor_fit_buyers
    total_buyers_evaluated := buyer_filters.length
    total_matches := sorted.length
    good_fit_count := good_fit_buyers.length
    marginal_fit_count := marginal_fit_buyers.length
    poor_fit_count := poor_fit_buyers.length }

set_option maxRecDepth 4000

/-! ### Concrete example records used by witnesses and counterexamples -/

/-- Property with only an exit strategy; every other field falsy. -/
def propFlip : PropertySubmission := ⟨"", "vacant", 0, "acres", 0, "flip"⟩

/-- Active land buyer whose only overlapping criterion is the flip exit
strategy. -/
def bfFlip : BuyBoxFilter :=
  ⟨1, "Buyer One", "b1@example.com", "land", true, false, "", [], ["flip"],
   Option.none, Option.none, Option.none, Option.none⟩

/-- Property whose address shares only the middle segment with bfThird. -/
def propThird : PropertySubmission := ⟨"Y, B, D", "vacant", 0, "acres", 0, ""⟩

/-- Active land buyer whose address matches propThird in one of three
compared components, producing a location score of one third. -/
def bfThird : BuyBoxFilter :=
  ⟨2, "Buyer Two", "b2@example.com", "land", true, false, "X, B, C", [], [],
   Option.none, Option.none, Option.none, Option.none⟩

/-- Blacklisted copy of bfFlip. -/
def bfBlack : BuyBoxFilter :=
  { bfFlip with buyer_id := 3, is_blacklisted := true }

/-- Property matching bfGood on land type and exit strategy. -/
def propGood : PropertySubmission := ⟨"", "Residential Vacant", 0, "acres", 0, "flip"⟩

/-- Active buyer matching propGood on land type (30) and exit strategy (20),
for a total score of 50. -/
def bfGood : BuyBoxFilter :=
  ⟨4, "Buyer Four", "b4@example.com", "both", true, false, "",
   ["residential_vacant"], ["flip"], Option.none, Option.none, Option.none, Option.none⟩

instance : Inhabited BuyerMatchEntry :=
  ⟨⟨bfFlip, 0, "", ⟨0, 0, 0, 0, 0⟩, ⟨0, 0, 0, 0, 0⟩, ⟨0, 0, 0, 0, 0⟩⟩⟩

/-! ### Helper lemmas -/

theorem tally_fst_le_snd (b p : Option String) : (tally b p).1 ≤ (tally b p).2 := by
  unfold tally
  cases truthyOpt (normalize_component b) <;> cases truthyOpt (normalize_component p) <;>
    (dsimp only; try split) <;> simp

theorem structuredCounts_fst_le_snd (bc pc : LocationComponents) :
    (structuredCounts bc pc).1 ≤ (structuredCounts bc pc).2 := by
  unfold structuredCounts
  have h1 := tally_fst_le_snd bc.city pc.city
  have h2 := tally_fst_le_snd bc.state pc.state
  have h3 := tally_fst_le_snd bc.county pc.county
  have h4 := tally_fst_le_snd bc.zip_code pc.zip_code
  dsimp only
  omega

theorem locationFallback_bounds (b p : String) :
    0 ≤ locationFallback b p ∧ locationFallback b p ≤ 1 := by
  unfold locationFallback
  dsimp only
  split_ifs with h1 h2 h3 h4
  · norm_num
  · refine ⟨le_min (by norm_num) (by positivity), ?_⟩
    exact le_trans (min_le_left _ _) (by norm_num)
  · norm_num
  · norm_num
  · norm_num

theorem location_score_bounds (b p : String) :
    0 ≤ calculate_location_match_score b p ∧ calculate_location_match_score b p ≤ 1 := by
  unfold calculate_location_match_score
  dsimp only
  split_ifs with h1 h2 h3
  · norm_num
  · norm_num
  · have hle := structuredCounts_fst_le_snd (extract_location_components b)
      (extract_location_components p)
    have hpos : (0 : ℚ) < ((structuredCounts (extract_location_components b)
        (extract_location_components p)).2 : ℚ) := by exact_mod_cast h3
    constructor
    · positivity
    · rw [div_le_one hpos]
      exact_mod_cast hle
  · exact locationFallback_bounds b p

theorem land_type_score_bounds (ts : List String) (pl : Option String) :
    0 ≤ calculate_land_type_match_score ts pl ∧ calculate_land_type_match_score ts pl ≤ 1 := by
  unfold calculate_land_type_match_score
  split_ifs
  · norm_num
  · cases pl <;> dsimp only
    · norm_num
    · split_ifs <;> norm_num

theorem exit_score_bounds (bs : List String) (ps : String) :
    0 ≤ calculate_exit_strategy_match_score bs ps ∧
      calculate_exit_strategy_match_score bs ps ≤ 1 := by
  unfold calculate_exit_strategy_match_score
  dsimp only
  split_ifs <;> norm_num

theorem min_bound_eq (a : Option ℚ) :
    (if truthy (ofOpt a) then pyFloat (ofOpt a) else some 0) = some (minBoundVal a) := by
  cases a with
  | none => simp [ofOpt, truthy, minBoundVal]
  | some q => by_cases h : q = 0 <;> simp [ofOpt, truthy, pyFloat, minBoundVal, h]

theorem max_bound_eq (b : Option ℚ) :
    (if truthy (ofOpt b) then (pyFloat (ofOpt b)).map some else some Option.none)
      = some (maxBoundVal b) := by
  cases b with
  | none => simp [ofOpt, truthy, maxBoundVal]
  | some q => by_cases h : q = 0 <;> simp [ofOpt, truthy, pyFloat, maxBoundVal, h]

theorem price_score_isSome (a b : Option ℚ) (v : PVal) :
    (calculate_price_match_score (ofOpt a) (ofOpt b) v).isSome := by
  unfold calculate_price_match_score
  rw [min_bound_eq a, max_bound_eq b]
  split_ifs
  · simp
  · cases hv : pyFloat v <;> simp

theorem lot_size_score_isSome (a b : Option ℚ) (v : PVal) (unit : Option String) :
    (calculate_lot_size_match_score (ofOpt a) (ofOpt b) v unit).isSome := by
  unfold calculate_lot_size_match_score
  rw [min_bound_eq a, max_bound_eq b]
  dsimp only
  split_ifs <;> simp

theorem price_score_mem (a b : Option ℚ) (v : PVal) (q : ℚ)
    (h : calculate_price_match_score (ofOpt a) (ofOpt b) v = some q) : q = 0 ∨ q = 1 := by
  unfold calculate_price_match_score at h
  rw [min_bound_eq a, max_bound_eq b] at h
  split_ifs at h
  · exact Or.inl ((Option.some.inj h).symm)
  · cases hv : pyFloat v with
    | none => rw [hv] at h; exact Or.inl ((Option.some.inj h).symm)
    | some p =>
      rw [hv] at h
      have hq := (Option.some.inj h).symm
      split_ifs at hq
      · exact Or.inr hq
      · exact Or.inl hq

theorem lot_size_score_mem (a b : Option ℚ) (v : PVal) (unit : Option String) (q : ℚ)
    (h : calculate_lot_size_match_score (ofOpt a) (ofOpt b) v unit = some q) : q = 0 ∨ q = 1 := by
  unfold calculate_lot_size_match_score at h
  rw [min_bound_eq a, max_bound_eq b] at h
  dsimp only at h
  split_ifs at h
  · exact Or.inl ((Option.some.inj h).symm)
  · exact Or.inl ((Option.some.inj h).symm)
  · exact Or.inr ((Option.some.inj h).symm)
  · exact Or.inl ((Option.some.inj h).symm)

theorem price_score_of_bounds (p : PropertySubmission) (bf : BuyBoxFilter) :
    0 ≤ price_score_of p bf ∧ price_score_of p bf ≤ 1 := by
  unfold price_score_of
  have hs := price_score_isSome bf.price_min bf.price_max (PVal.vnum p.agreed_price)
  obtain ⟨q, hq⟩ := Option.isSome_iff_exists.mp hs
  rw [hq]
  rcases price_score_mem _ _ _ _ hq with h | h <;> simp [h]

theorem lot_size_score_of_bounds (p : PropertySubmission) (bf : BuyBoxFilter) :
    0 ≤ lot_size_score_of p bf ∧ lot_size_score_of p bf ≤ 1 := by
  unfold lot_size_score_of
  dsimp only
  have hs := lot_size_score_isSome bf.lot_size_min bf.lot_size_max
    (PVal.vnum (normalize_lot_size_to_acres (PVal.vnum p.lot_size) (some p.lot_size_unit)))
    (some "acres")
  obtain ⟨q, hq⟩ := Option.isSome_iff_exists.mp hs
  rw [hq]
  rcases lot_size_score_mem _ _ _ _ _ hq with h | h <;> simp [h]

theorem pyRoundHalfEven_bounds (a b : ℤ) (q : ℚ) (h1 : (a : ℚ) ≤ q) (h2 : q ≤ (b : ℚ)) :
    a ≤ pyRoundHalfEven q ∧ pyRoundHalfEven q ≤ b := by
  unfold pyRoundHalfEven
  have hfa : a ≤ ⌊q⌋ := Int.le_floor.mpr h1
  have hfb : ⌊q⌋ ≤ b := by
    have := Int.floor_le_floor h2
    simpa using this
  have hfq : (⌊q⌋ : ℚ) ≤ q := Int.floor_le q
  dsimp only
  split_ifs with hc1 hc2 hc3
  · exact ⟨hfa, hfb⟩
  · constructor
    · omega
    · have hlt : (⌊q⌋ : ℚ) < (b : ℚ) := by linarith
      have : ⌊q⌋ < b := by exact_mod_cast hlt
      omega
  · exact ⟨hfa, hfb⟩
  · constructor
    · omega
    · have hr : q - (⌊q⌋ : ℚ) = 1 / 2 := le_antisymm (not_lt.mp hc2) (not_lt.mp hc1)
      have hlt : (⌊q⌋ : ℚ) < (b : ℚ) := by linarith
      have : ⌊q⌋ < b := by exact_mod_cast hlt
      omega

theorem pyRound_bounds (lo hi : ℤ) (q : ℚ) (n : ℕ) (h1 : (lo : ℚ) ≤ q) (h2 : q ≤ (hi : ℚ)) :
    (lo : ℚ) ≤ pyRound q n ∧ pyRound q n ≤ (hi : ℚ) := by
  unfold pyRound
  have hpow : (0 : ℚ) < (10 : ℚ) ^ n := by positivity
  have hb := pyRoundHalfEven_bounds (lo * 10 ^ n) (hi * 10 ^ n) (q * (10 : ℚ) ^ n)
    (by push_cast; exact mul_le_mul_of_nonneg_right h1 (le_of_lt hpow))
    (by push_cast; exact mul_le_mul_of_nonneg_right h2 (le_of_lt hpow))
  obtain ⟨hlo, hhi⟩ := hb
  constructor
  · rw [le_div_iff hpow]
    calc (lo : ℚ) * (10 : ℚ) ^ n = ((lo * 10 ^ n : ℤ) : ℚ) := by push_cast; ring
      _ ≤ (pyRoundHalfEven (q * (10 : ℚ) ^ n) : ℚ) := by exact_mod_cast hlo
  · rw [div_le_iff hpow]
    calc (pyRoundHalfEven (q * (10 : ℚ) ^ n) : ℚ) ≤ ((hi * 10 ^ n : ℤ) : ℚ) := by
          exact_mod_cast hhi
      _ = (hi : ℚ) * (10 : ℚ) ^ n := by push_cast; ring

theorem pyRound_pct_bounds (s : ℚ) (h0 : 0 ≤ s) (h1 : s ≤ 1) :
    0 ≤ pyRound (s * 100) 1 ∧ pyRound (s * 100) 1 ≤ 100 := by
  obtain ⟨ha, hb⟩ := pyRound_bounds 0 100 (s * 100) 1 (by push_cast; linarith)
    (by push_cast; linarith)
  exact ⟨by simpa using ha, by simpa using hb⟩

theorem eval_eq_some (p : PropertySubmission) (bf : BuyBoxFilter) (r : MatchResult)
    (h : match_property_to_single_buyer p bf = some r) :
    bf.is_active_buyer = true ∧ bf.is_blacklisted = false ∧ bf.asset_type ≠ "houses" ∧
      1 ≤ total_score_of p bf ∧ r = mk_match_result p bf := by
  unfold match_property_to_single_buyer at h
  split_ifs at h with hg1 hg2 hg3 <;> cases h
  refine ⟨?_, ?_, hg2, not_lt.mp hg3, rfl⟩
  · revert hg1; cases bf.is_active_buyer <;> simp
  · revert hg1; cases bf.is_blacklisted <;> simp

theorem component_scores_bounds (p : PropertySubmission) (bf : BuyBoxFilter) :
    (0 ≤ (component_scores_of p bf).location ∧ (component_scores_of p bf).location ≤ 1) ∧
    (0 ≤ (component_scores_of p bf).land_type ∧ (component_scores_of p bf).land_type ≤ 1) ∧
    (0 ≤ (component_scores_of p bf).exit_strategy ∧ (component_scores_of p bf).exit_strategy ≤ 1) ∧
    (0 ≤ (component_scores_of p bf).lot_size ∧ (component_scores_of p bf).lot_size ≤ 1) ∧
    (0 ≤ (component_scores_of p bf).price ∧ (component_scores_of p bf).price ≤ 1) :=
  ⟨location_score_bounds bf.address p.address,
   land_type_score_bounds bf.land_property_types (some p.land_type),
   exit_score_bounds bf.exit_strategy p.exit_strategy,
   lot_size_score_of_bounds p bf,
   price_score_of_bounds p bf⟩

/-- Helper for the zero-acre behavior of the lot size scorer: a normalized
size of 0 scores 0 before the buyer bounds are converted. -/
theorem lot_size_zero_score (bmin bmax v : PVal) (unit : Option String)
    (h : normalize_lot_size_to_acres v unit = 0) :
    calculate_lot_size_match_score bmin bmax v unit = some 0 := by
  unfold calculate_lot_size_match_score
  dsimp only
  split_ifs <;> rfl

/-! ### Claim theorems -/

/-- C1, counterexample: on the inputs of the claim the location scorer does
not return 1.0. -/
theorem C1_counterexample :
    calculate_location_match_score "Tampa, FL" "123 Main St, Tampa, FL 33602" ≠ 1 := by
  with_unfolding_all decide

/-- C1, amended: the buyer text parses as city Tampa, state FL, but the
property text parses as city 123 Main St, state Tampa, county FL, zip 33602,
because the street line occupies the first comma segment; city and state are
both compared (denominator 2) and neither matches, so the score is 0.0. -/
theorem C1_amended :
    extract_location_components "Tampa, FL" =
      ⟨some "Tampa", Option.none, some "FL", Option.none, Option.none, some "Tampa, FL"⟩ ∧
    extract_location_components "123 Main St, Tampa, FL 33602" =
      ⟨some "123 Main St", some "FL", some "Tampa", some "33602", Option.none,
       some "123 Main St, Tampa, FL 33602"⟩ ∧
    structuredCounts (extract_location_components "Tampa, FL")
      (extract_location_components "123 Main St, Tampa, FL 33602") = (0, 2) ∧
    calculate_location_match_score "Tampa, FL" "123 Main St, Tampa, FL 33602" = 0 := by
  refine ⟨by decide, by decide, by decide, by with_unfolding_all decide⟩

/-- C4: the fit classification used by the evaluator maps scores above 45 to
Good Fit, exactly 45 and exactly 40 to Marginal Fit, 45.01 to Good Fit, and
scores below 40 (such as 39.99) to Poor Fit; every returned result carries
this classification of its total score. -/
theorem C4_theorem :
    (∀ s : ℚ, 45 < s → likelihood_of s = "Good Fit") ∧
    likelihood_of 45 = "Marginal Fit" ∧
    likelihood_of 40 = "Marginal Fit" ∧
    likelihood_of (45.01 : ℚ) = "Good Fit" ∧
    (∀ s : ℚ, s < 40 → likelihood_of s = "Poor Fit") ∧
    likelihood_of (39.99 : ℚ) = "Poor Fit" ∧
    (∀ (p : PropertySubmission) (bf : BuyBoxFilter) (r : MatchResult),
      match_property_to_single_buyer p bf = some r →
        r.likelihood = likelihood_of (total_score_of p bf)) := by
  refine ⟨?_, ?_, ?_, ?_, ?_, ?_, ?_⟩
  · intro s hs
    unfold likelihood_of
    rw [if_pos hs]
  · with_unfolding_all decide
  · with_unfolding_all decide
  · with_unfolding_all decide
  · intro s hs
    unfold likelihood_of
    rw [if_neg (by linarith), if_pos hs]
  · with_unfolding_all decide
  · intro p bf r h
    obtain ⟨_, _, _, _, hr⟩ := eval_eq_some p bf r h
    rw [hr]
    rfl

/-- C4, witness at concrete scores 46 and 39. -/
theorem C4_witness : likelihood_of 46 = "Good Fit" ∧ likelihood_of 39 = "Poor Fit" :=
  ⟨C4_theorem.1 46 (by norm_num), C4_theorem.2.2.2.2.1 39 (by norm_num)⟩

/-- C5: an inactive, blacklisted, or houses-only buyer record is never
evaluated; the evaluator returns None. -/
theorem C5_theorem : ∀ (p : PropertySubmission) (bf : BuyBoxFilter),
    bf.is_active_buyer = false ∨ bf.is_blacklisted = true ∨ bf.asset_type = "houses" →
    match_property_to_single_buyer p bf = Option.none := by
  intro p bf h
  unfold match_property_to_single_buyer
  rcases h with h | h | h <;> simp [h]

/-- C5, witness: a blacklisted buyer with an otherwise matching record. -/
theorem C5_witness : match_property_to_single_buyer propFlip bfBlack = Option.none :=
  C5_theorem propFlip bfBlack (Or.inr (Or.inl rfl))

/-- C6: for an eligible buyer the evaluator returns None exactly when the
total weighted score is below 1; any total of at least 1 yields a result,
Poor Fit included. -/
theorem C6_theorem : ∀ (p : PropertySubmission) (bf : BuyBoxFilter),
    bf.is_active_buyer = true → bf.is_blacklisted = false → bf.asset_type ≠ "houses" →
    (match_property_to_single_buyer p bf = Option.none ↔ total_score_of p bf < 1) := by
  intro p bf h1 h2 h3
  unfold match_property_to_single_buyer
  rw [h1, h2, if_neg (by simp), if_neg h3]
  split_ifs with h4
  · exact iff_of_true rfl h4
  · exact iff_of_false (by simp) h4

/-- C6, witness: the concrete evaluation of propFlip against bfFlip has a
total of 20 and is therefore returned. -/
theorem C6_witness : match_property_to_single_buyer propFlip bfFlip ≠ Option.none :=
  fun hc => absurd ((C6_theorem propFlip bfFlip rfl rfl (by decide)).mp hc)
    (by with_unfolding_all decide)

/-- C7: 108900 square feet normalize to exactly 2.5 acres and fall inside
the buyer range [2, 3]; the bounds are inclusive, and absent bounds accept
any positive size. -/
theorem C7_theorem :
    normalize_lot_size_to_acres (PVal.vnum 108900) (some "sqft") = 5 / 2 ∧
    calculate_lot_size_match_score (ofOpt (some 2)) (ofOpt (some 3)) (PVal.vnum 108900)
      (some "sqft") = some 1 ∧
    calculate_lot_size_match_score (ofOpt (some 2)) (ofOpt (some 3)) (PVal.vnum 2)
      (some "acres") = some 1 ∧
    calculate_lot_size_match_score (ofOpt (some 2)) (ofOpt (some 3)) (PVal.vnum 3)
      (some "acres") = some 1 ∧
    (∀ q : ℚ, 0 < q →
      calculate_lot_size_match_score (ofOpt Option.none) (ofOpt Option.none) (PVal.vnum q)
        (some "acres") = some 1) := by
  refine ⟨by with_unfolding_all decide, by with_unfolding_all decide,
    by with_unfolding_all decide, by with_unfolding_all decide, ?_⟩
  intro q hq
  have hne : q ≠ 0 := ne_of_gt hq
  have hu : pyLower "acres" ≠ "sqft" := by decide
  unfold calculate_lot_size_match_score
  rw [min_bound_eq, max_bound_eq]
  have hn : normalize_lot_size_to_acres (PVal.vnum q) (some "acres") = q := by
    unfold normalize_lot_size_to_acres
    simp [truthy, pyFloat, hne, hu]
  dsimp only
  rw [hn]
  simp [truthy, hne, minBoundVal, maxBoundVal, leMax, hq.le]

/-- C7, witness of the open-range conjunct at size 7. -/
theorem C7_witness :
    calculate_lot_size_match_score (ofOpt Option.none) (ofOpt Option.none) (PVal.vnum 7)
      (some "acres") = some 1 :=
  C7_theorem.2.2.2.2 7 (by norm_num)

/-- C10: whenever the normalized lot size is 0 (a zero, missing or
unparseable size), the lot size scorer returns 0.0 for every choice of
buyer bounds, including an absent or zero minimum, rather than treating 0
as inside the closed range. -/
theorem C10_theorem : ∀ (bmin bmax v : PVal) (unit : Option String),
    normalize_lot_size_to_acres v unit = 0 →
    calculate_lot_size_match_score bmin bmax v unit = some 0 :=
  fun bmin bmax v unit h => lot_size_zero_score bmin bmax v unit h

/-- C10, witness: a lot size of exactly 0 acres against the range [0, 5]
scores 0, not 1. -/
theorem C10_witness :
    calculate_lot_size_match_score (ofOpt Option.none) (ofOpt (some 5)) (PVal.vnum 0)
      (some "acres") = some 0 :=
  C10_theorem _ _ _ _ (by with_unfolding_all decide)

/-- C3, counterexample: a truthy non-numeric buyer-side minimum makes the
price scorer raise (modelled as none) instead of returning 0.0, even for a
perfectly ordinary property price. -/
theorem C3_counterexample :
    calculate_price_match_score (PVal.vstr "n/a") PVal.vnone (PVal.vnum 50000) =
      Option.none := by
  with_unfolding_all decide

/-- C3, amended: over the documented model domain (Decimal-or-null buyer
bounds) the price and lot size scorers are total, and an unparseable
property-side numeric value scores 0.0 for every bound, even a raising one;
only a truthy unparseable buyer-side bound raises. -/
theorem C3_theorem :
    (∀ (a b : Option ℚ) (v : PVal),
      (calculate_price_match_score (ofOpt a) (ofOpt b) v).isSome) ∧
    (∀ (a b : Option ℚ) (v : PVal) (unit : Option String),
      (calculate_lot_size_match_score (ofOpt a) (ofOpt b) v unit).isSome) ∧
    (∀ (bmin bmax v : PVal), pyFloat v = Option.none →
      calculate_price_match_score bmin bmax v = some 0) ∧
    (∀ (bmin bmax v : PVal) (unit : Option String), pyFloat v = Option.none →
      calculate_lot_size_match_score bmin bmax v unit = some 0) := by
  refine ⟨price_score_isSome, lot_size_score_isSome, ?_, ?_⟩
  · intro bmin bmax v hv
    unfold calculate_price_match_score
    split_ifs <;> first | rfl | (rw [hv]; try rfl)
  · intro bmin bmax v unit hv
    refine lot_size_zero_score bmin bmax v unit ?_
    unfold normalize_lot_size_to_acres
    split_ifs <;> first | rfl | (rw [hv]; try rfl)

/-- C3, witness at a concrete unparseable property price. -/
theorem C3_witness :
    (calculate_price_match_score (ofOpt (some 1)) (ofOpt (some 2)) (PVal.vstr "n/a")).isSome
      = true ∧
    calculate_price_match_score (PVal.vnum 1) (PVal.vnum 2) (PVal.vstr "n/a") = some 0 :=
  ⟨C3_theorem.1 (some 1) (some 2) (PVal.vstr "n/a"),
   C3_theorem.2.2.1 (PVal.vnum 1) (PVal.vnum 2) (PVal.vstr "n/a")
     (by with_unfolding_all decide)⟩

/-- C2, counterexample: for a location score of one third the returned
match_score is the two-decimal rounding 13.33 while the returned raw
weighted contributions sum to 40/3, so they do not sum exactly to the
returned total. -/
theorem C2_counterexample :
    (match_property_to_single_buyer propThird bfThird).map
        (fun r => r.weighted_contribution.location + r.weighted_contribution.land_type +
          r.weighted_contribution.exit_strategy + r.weighted_contribution.lot_size +
          r.weighted_contribution.price) ≠
      (match_property_to_single_buyer propThird bfThird).map (fun r => r.match_score) := by
  with_unfolding_all decide

/-- C2, amended: in every returned result the five raw weighted
contributions are the component scores times the fixed weights 40, 30, 20,
5, 5 (which sum to 100) and sum exactly to the pre-rounding total score, of
which the returned match_score is the rounding to two decimals. -/
theorem C2_theorem : ∀ (p : PropertySubmission) (bf : BuyBoxFilter) (r : MatchResult),
    match_property_to_single_buyer p bf = some r →
    (r.weighted_contribution.location + r.weighted_contribution.land_type +
      r.weighted_contribution.exit_strategy + r.weighted_contribution.lot_size +
      r.weighted_contribution.price = total_score_of p bf) ∧
    r.match_score = pyRound (total_score_of p bf) 2 ∧
    r.weighted_contribution.location = (component_scores_of p bf).location * 40 ∧
    r.weighted_contribution.land_type = (component_scores_of p bf).land_type * 30 ∧
    r.weighted_contribution.exit_strategy = (component_scores_of p bf).exit_strategy * 20 ∧
    r.weighted_contribution.lot_size = (component_scores_of p bf).lot_size * 5 ∧
    r.weighted_contribution.price = (component_scores_of p bf).price * 5 ∧
    (40 : ℚ) + 30 + 20 + 5 + 5 = 100 := by
  intro p bf r h
  obtain ⟨_, _, _, _, hr⟩ := eval_eq_some p bf r h
  subst hr
  exact ⟨rfl, rfl, rfl, rfl, rfl, rfl, rfl, by norm_num⟩

/-- C2, witness at the concrete evaluation of propFlip against bfFlip. -/
theorem C2_witness :
    (mk_match_result propFlip bfFlip).weighted_contribution.location +
      (mk_match_result propFlip bfFlip).weighted_contribution.land_type +
      (mk_match_result propFlip bfFlip).weighted_contribution.exit_strategy +
      (mk_match_result propFlip bfFlip).weighted_contribution.lot_size +
      (mk_match_result propFlip bfFlip).weighted_contribution.price =
      total_score_of propFlip bfFlip :=
  (C2_theorem propFlip bfFlip (mk_match_result propFlip bfFlip)
    (by with_unfolding_all decide)).1

/-- C8, counterexample: a full exit strategy match is reported in the
component-score breakdown as 100.0, outside the interval [0, 1]. -/
theorem C8_counterexample :
    (match_property_to_single_buyer propFlip bfFlip).map
        (fun r => r.component_scores.exit_strategy) = some 100 ∧
    ¬ ((100 : ℚ) ≤ 1) := by
  exact ⟨by with_unfolding_all decide, by norm_num⟩

/-- C8, amended: the internally computed component scores are normalized
values in [0, 1]; the breakdown reported in the result scales each by 100
and rounds to one decimal, so each reported value lies in [0, 100], not in
[0, 1]. -/
theorem C8_theorem : ∀ (p : PropertySubmission) (bf : BuyBoxFilter) (r : MatchResult),
    match_property_to_single_buyer p bf = some r →
    (r.component_scores.location = pyRound ((component_scores_of p bf).location * 100) 1 ∧
     r.component_scores.land_type = pyRound ((component_scores_of p bf).land_type * 100) 1 ∧
     r.component_scores.exit_strategy =
       pyRound ((component_scores_of p bf).exit_strategy * 100) 1 ∧
     r.component_scores.lot_size = pyRound ((component_scores_of p bf).lot_size * 100) 1 ∧
     r.component_scores.price = pyRound ((component_scores_of p bf).price * 100) 1) ∧
    ((0 ≤ (component_scores_of p bf).location ∧ (component_scores_of p bf).location ≤ 1) ∧
     (0 ≤ (component_scores_of p bf).land_type ∧ (component_scores_of p bf).land_type ≤ 1) ∧
     (0 ≤ (component_scores_of p bf).exit_strategy ∧
       (component_scores_of p bf).exit_strategy ≤ 1) ∧
     (0 ≤ (component_scores_of p bf).lot_size ∧ (component_scores_of p bf).lot_size ≤ 1) ∧
     (0 ≤ (component_scores_of p bf).price ∧ (component_scores_of p bf).price ≤ 1)) ∧
    ((0 ≤ r.component_scores.location ∧ r.component_scores.location ≤ 100) ∧
     (0 ≤ r.component_scores.land_type ∧ r.component_scores.land_type ≤ 100) ∧
     (0 ≤ r.component_scores.exit_strategy ∧ r.component_scores.exit_strategy ≤ 100) ∧
     (0 ≤ r.component_scores.lot_size ∧ r.component_scores.lot_size ≤ 100) ∧
     (0 ≤ r.component_scores.price ∧ r.component_scores.price ≤ 100)) := by
  intro p bf r h
  obtain ⟨_, _, _, _, hr⟩ := eval_eq_some p bf r h
  subst hr
  obtain ⟨hb1, hb2, hb3, hb4, hb5⟩ := component_scores_bounds p bf
  refine ⟨⟨rfl, rfl, rfl, rfl, rfl⟩, ⟨hb1, hb2, hb3, hb4, hb5⟩, ?_, ?_, ?_, ?_, ?_⟩
  · exact pyRound_pct_bounds _ hb1.1 hb1.2
  · exact pyRound_pct_bounds _ hb2.1 hb2.2
  · exact pyRound_pct_bounds _ hb3.1 hb3.2
  · exact pyRound_pct_bounds _ hb4.1 hb4.2
  · exact pyRound_pct_bounds _ hb5.1 hb5.2

/-- C8, witness at the concrete evaluation of propFlip against bfFlip. -/
theorem C8_witness :
    (mk_match_result propFlip bfFlip).component_scores.exit_strategy =
      pyRound ((component_scores_of propFlip bfFlip).exit_strategy * 100) 1 :=
  (C8_theorem propFlip bfFlip (mk_match_result propFlip bfFlip)
    (by with_unfolding_all decide)).1.2.2.1

theorem entry_le_trans : ∀ a b c : BuyerMatchEntry, entry_le a b → entry_le b c → entry_le a c := by
  intro a b c hab hbc
  simp only [entry_le, decide_eq_true_eq] at *
  exact le_trans hbc hab

theorem entry_le_total : ∀ a b : BuyerMatchEntry, entry_le a b || entry_le b a := by
  intro a b
  simp only [entry_le, Bool.or_eq_true, decide_eq_true_eq]
  exact le_total b.match_score a.match_score

theorem filter3_perm {α : Type} (p q r : α → Bool) (l : List α)
    (h : ∀ x, (p x = true ∧ q x = false ∧ r x = false) ∨
      (p x = false ∧ q x = true ∧ r x = false) ∨
      (p x = false ∧ q x = false ∧ r x = true)) :
    (l.filter p ++ l.filter q ++ l.filter r).Perm l := by
  induction l with
  | nil => simp
  | cons a t ih =>
    rcases h a with ⟨h1, h2, h3⟩ | ⟨h1, h2, h3⟩ | ⟨h1, h2, h3⟩ <;>
      simp only [List.filter_cons, h1, h2, h3, Bool.false_eq_true, eq_self_iff_true,
        if_true, if_false, List.cons_append]
    · exact ih.cons a
    · have e : t.filter p ++ (a :: t.filter q) ++ t.filter r
          = t.filter p ++ a :: (t.filter q ++ t.filter r) := by
        simp [List.append_assoc]
      rw [e]
      refine List.Perm.trans List.perm_middle (List.Perm.cons a ?_)
      rw [← List.append_assoc]
      exact ih
    · exact List.Perm.trans List.perm_middle (List.Perm.cons a ih)

theorem score_trichotomy : ∀ x : BuyerMatchEntry,
    ((decide (45 < x.match_score)) = true ∧
      ((decide (40 ≤ x.match_score)) && (decide (x.match_score ≤ 45))) = false ∧
      (decide (x.match_score < 40)) = false) ∨
    ((decide (45 < x.match_score)) = false ∧
      ((decide (40 ≤ x.match_score)) && (decide (x.match_score ≤ 45))) = true ∧
      (decide (x.match_score < 40)) = false) ∨
    ((decide (45 < x.match_score)) = false ∧
      ((decide (40 ≤ x.match_score)) && (decide (x.match_score ≤ 45))) = false ∧
      (decide (x.match_score < 40)) = true) := by
  intro x
  rcases lt_or_le 45 x.match_score with h | h
  · left
    have h40 : (40 : ℚ) ≤ x.match_score := le_of_lt (lt_trans (by norm_num) h)
    exact ⟨by simp [h], by simp [not_le.mpr h], by simp [not_lt.mpr h40]⟩
  · rcases le_or_lt 40 x.match_score with h2 | h2
    · right; left
      exact ⟨by simp [not_lt.mpr h], by simp [h2, h], by simp [not_lt.mpr h2]⟩
    · right; right
      have h45 : ¬(45 < x.match_score) := not_lt.mpr h
      exact ⟨by simp [h45], by simp [not_le.mpr h2], by simp [h2]⟩

/-- C9: the pool matcher returns the collected non-null results sorted in
descending score order with ties keeping collection order, partitions them
into the three threshold buckets whose multiset union is the full match
list, and reports summary counts equal to the list and bucket sizes. -/
theorem C9_theorem : ∀ (p : PropertySubmission) (filters : List BuyBoxFilter),
    (match_property_to_buyers p filters).all_matches.Perm (collected_matches p filters) ∧
    (match_property_to_buyers p filters).all_matches.Pairwise
      (fun a b => b.match_score ≤ a.match_score) ∧
    (∀ x y : BuyerMatchEntry, [x, y].Sublist (collected_matches p filters) →
      y.match_score ≤ x.match_score →
      [x, y].Sublist (match_property_to_buyers p filters).all_matches) ∧
    ((match_property_to_buyers p filters).good_fit_buyers ++
      (match_property_to_buyers p filters).marginal_fit_buyers ++
      (match_property_to_buyers p filters).poor_fit_buyers).Perm
      (match_property_to_buyers p filters).all_matches ∧
    (∀ m ∈ (match_property_to_buyers p filters).good_fit_buyers, 45 < m.match_score) ∧
    (∀ m ∈ (match_property_to_buyers p filters).marginal_fit_buyers,
      40 ≤ m.match_score ∧ m.match_score ≤ 45) ∧
    (∀ m ∈ (match_property_to_buyers p filters).poor_fit_buyers, m.match_score < 40) ∧
    (match_property_to_buyers p filters).total_buyers_evaluated
      = (filters.filter eligible_filter).length ∧
    (match_property_to_buyers p filters).total_matches
      = (match_property_to_buyers p filters).all_matches.length ∧
    (match_property_to_buyers p filters).good_fit_count
      = (match_property_to_buyers p filters).good_fit_buyers.length ∧
    (match_property_to_buyers p filters).marginal_fit_count
      = (match_property_to_buyers p filters).marginal_fit_buyers.length ∧
    (match_property_to_buyers p filters).poor_fit_count
      = (match_property_to_buyers p filters).poor_fit_buyers.length := by
  intro p filters
  unfold match_property_to_buyers
  dsimp only
  refine ⟨List.mergeSort_perm _ _, ?_, ?_, ?_, ?_, ?_, ?_, rfl, rfl, rfl, rfl, rfl⟩
  · exact (List.sorted_mergeSort entry_le_trans entry_le_total
      (collected_matches p filters)).imp (fun h => by simpa [entry_le] using h)
  · intro x y hsub hxy
    exact List.pair_sublist_mergeSort entry_le_trans entry_le_total
      (by simpa [entry_le] using hxy) hsub
  · exact filter3_perm _ _ _ _ score_trichotomy
  · intro m hm
    simpa using (List.mem_filter.mp hm).2
  · intro m hm
    simpa using (List.mem_filter.mp hm).2
  · intro m hm
    simpa using (List.mem_filter.mp hm).2

/-- C9, witness: the pool output for a concrete two-buyer pool is a
permutation of the collected evaluation results. -/
theorem C9_witness :
    (match_property_to_buyers propGood [bfGood, bfFlip]).all_matches.Perm
      (collected_matches propGood [bfGood, bfFlip]) :=
  (C9_theorem propGood [bfGood, bfFlip]).1
